import Mathlib

/-!
Verification of the NPC speech-synthesis and playback pipeline
(the NPCVoiceManager class and its TTS worker boundary).

The manager's mutable fields become a Lean structure; the external
AudioContext device is modelled by its contract (start a buffer source,
signal completion once when the clip finishes, tolerate stop on an ended
source) together with observation logs of the calls the manager issues to
it.  JavaScript promise suspension points split async methods into a
synchronous start function and an explicit resumption function taking the
awaited outcome as an argument.  Float32Array sample data is carried as a
list of abstract amplitudes (List Int); sample counts and rates are Nat,
and durations (seconds) are exact rationals.
-/

namespace NPC

/-- A synthesis result: the audio samples and sample rate delivered in a
generate_done message (result.audio / result.sampling_rate in the worker). -/
structure SynthRes where
  samples : List Int
  sampleRate : Nat
  deriving DecidableEq, Repr

/-- An AudioBuffer as built by speakSentence: one channel filled with the
synthesis samples, at the synthesis sample rate. -/
structure Clip where
  samples : List Int
  sampleRate : Nat
  deriving DecidableEq, Repr

/-- The mutable fields of NPCVoiceManager.  Nullable object handles
(worker, audioCtx) that are only tested for presence become Bool flags;
currentSource keeps the clip of the in-flight buffer source; the pending
Map is represented by its key set (the resolver of each entry is observed
through the Completion events handleMessage emits).  spawnCount is a ghost
counter of Worker constructions, incremented where the code runs new
Worker(...). -/
structure VM where
  hasWorker : Bool
  hasCtx : Bool
  playbackQueue : List Clip
  isPlaying : Bool
  currentSource : Option Clip
  nextId : Nat
  pending : List Nat
  initialized : Bool
  hasInitPromise : Bool
  spawnCount : Nat
  deriving DecidableEq, Repr

/-- Observation log of the audio-output device: which clips are currently
in flight (started and neither finished nor stopped), every start in
order, and how many stop calls were issued. -/
structure Device where
  active : List Clip
  started : List Clip
  stops : Nat
  deriving DecidableEq, Repr

/-- The manager state before construction side effects: no worker, no
audio context, empty queue and table, id counter at 0. -/
def initialVM : VM :=
  { hasWorker := false, hasCtx := false, playbackQueue := [], isPlaying := false,
    currentSource := none, nextId := 0, pending := [], initialized := false,
    hasInitPromise := false, spawnCount := 0 }

/-- A fresh device with nothing playing and no calls recorded. -/
def initialDev : Device := { active := [], started := [], stops := 0 }

/-- NPCVoiceManager.drainQueue.  Guard mirrors
(isPlaying || playbackQueue.length === 0 || !audioCtx); otherwise the head
is shifted off the queue, wrapped in a buffer source, recorded as the
current source and started on the device. -/
def drainQueue (vm : VM) (dev : Device) : VM × Device :=
  if vm.isPlaying || vm.playbackQueue.isEmpty || !vm.hasCtx then (vm, dev)
  else
    match vm.playbackQueue with
    | [] => (vm, dev)
    | buffer :: rest =>
      ({ vm with isPlaying := true, playbackQueue := rest, currentSource := some buffer },
       { dev with active := dev.active ++ [buffer], started := dev.started ++ [buffer] })

/-- The source.onended completion callback registered by drainQueue:
clears isPlaying and currentSource, then recursively drains.  The device
has already retired the finished clip from its in-flight set when the
callback runs. -/
def onEnded (vm : VM) (dev : Device) : VM × Device :=
  drainQueue { vm with isPlaying := false, currentSource := none } dev

/-- NPCVoiceManager.stopPlayback: truncate the queue, stop the current
source if any (the try/catch around source.stop tolerates an
already-stopped or ended handle, modelled by List.erase being a no-op on
an absent clip), clear the handle, reset isPlaying. -/
def stopPlayback (vm : VM) (dev : Device) : VM × Device :=
  let vm1 := { vm with playbackQueue := [] }
  match vm1.currentSource with
  | some c =>
    ({ vm1 with currentSource := none, isPlaying := false },
     { dev with stops := dev.stops + 1, active := dev.active.erase c })
  | none => ({ vm1 with isPlaying := false }, dev)

/-- NPCVoiceManager.generateAudio: reject when no worker exists, else
allocate this.nextId++ as the request id, insert it into the correlation
table and post the generate message; the returned id identifies the
pending promise. -/
def generateAudio (vm : VM) : VM × Except String Nat :=
  if !vm.hasWorker then (vm, Except.error "TTS worker not initialized")
  else ({ vm with nextId := vm.nextId + 1, pending := vm.pending ++ [vm.nextId] },
        Except.ok vm.nextId)

/-- Messages the steady-state handler inspects (e.data of worker messages
after init). -/
inductive WMsg where
  | generate_done (id : Nat) (samples : List Int) (sampleRate : Nat)
  | generate_error (id : Nat) (error : String)
  | other
  deriving DecidableEq, Repr

/-- What happens to the pending promise of a correlation-table entry:
req.resolve with the result, or req.reject with the worker's error. -/
inductive Completion where
  | resolved (id : Nat) (r : SynthRes)
  | rejected (id : Nat) (error : String)
  deriving DecidableEq, Repr

/-- NPCVoiceManager.handleMessage: look the id up in the pending table;
when present, delete the entry and settle its promise; when absent, do
nothing. -/
def handleMessage (vm : VM) (msg : WMsg) : VM × Option Completion :=
  match msg with
  | .generate_done id samples sr =>
    if id ∈ vm.pending then
      ({ vm with pending := vm.pending.filter (fun x => x != id) },
       some (.resolved id { samples := samples, sampleRate := sr }))
    else (vm, none)
  | .generate_error id e =>
    if id ∈ vm.pending then
      ({ vm with pending := vm.pending.filter (fun x => x != id) },
       some (.rejected id e))
    else (vm, none)
  | .other => (vm, none)

/-- The AudioBuffer speakSentence builds from a synthesis result:
createBuffer(1, samples.length, sampleRate) then copying the samples into
channel 0. -/
def clipOf (r : SynthRes) : Clip := { samples := r.samples, sampleRate := r.sampleRate }

/-- Result of running speakSentence up to its first suspension point:
either it already returned (with the state at return, the returned
duration, and whether console.warn ran), or it is suspended awaiting the
generateAudio promise for a request id. -/
inductive SpeakStep where
  | done (vm : VM) (duration : ℚ) (warned : Bool)
  | awaiting (vm : VM) (id : Nat)
  deriving DecidableEq, Repr

/-- NPCVoiceManager.speakSentence, synchronous prefix: the
(!audioCtx || !initialized) guard returns 0 immediately; then
generateAudio either rejects (the await throws, the catch logs a warning
and returns 0) or leaves the call suspended on the request id. -/
def speakSentenceStart (vm : VM) : SpeakStep :=
  if !vm.hasCtx || !vm.initialized then .done vm 0 false
  else
    match generateAudio vm with
    | (vm1, .error _) => .done vm1 0 true
    | (vm1, .ok id) => .awaiting vm1 id

/-- State and outputs after speakSentence resumes from its await. -/
structure SpeakOutcome where
  vm : VM
  dev : Device
  duration : ℚ
  warned : Bool
  deriving DecidableEq, Repr

/-- NPCVoiceManager.speakSentence, resumption after awaiting
generateAudio: a rejection is caught, warned about and turned into a 0
duration; a result is measured (duration = audio.length / sampleRate),
wrapped in a buffer, pushed onto the playback queue, and drainQueue is
triggered. -/
def speakSentenceResume (vm : VM) (dev : Device) (outcome : Except String SynthRes) :
    SpeakOutcome :=
  match outcome with
  | .error _ => { vm := vm, dev := dev, duration := 0, warned := true }
  | .ok r =>
    let duration : ℚ := (r.samples.length : ℚ) / (r.sampleRate : ℚ)
    let p := drainQueue { vm with playbackQueue := vm.playbackQueue ++ [clipOf r] } dev
    { vm := p.1, dev := p.2, duration := duration, warned := false }

/-- Returns-ready predicate: the isReady getter. -/
def isReady (vm : VM) : Bool := vm.initialized

/-- Which of the three branches of init the call took. -/
inductive InitAction where
  | alreadyReady
  | joinExisting
  | startNew
  deriving DecidableEq, Repr

/-- NPCVoiceManager.init: return at once when initialized; return the
stored initPromise when one exists; otherwise store a promise for _init,
whose synchronous prefix constructs the Worker (counted by the ghost
spawnCount) before suspending on the init handshake. -/
def init (vm : VM) : VM × InitAction :=
  if vm.initialized then (vm, .alreadyReady)
  else if vm.hasInitPromise then (vm, .joinExisting)
  else ({ vm with hasInitPromise := true, hasWorker := true,
                  spawnCount := vm.spawnCount + 1 }, .startNew)

/-- The state transformation of one init call (discarding the action). -/
def initStep (vm : VM) : VM := (init vm).1

/-- The init_done branch of the temporary onmessage handler inside _init:
sets initialized and swaps to the steady-state handler, then resolves the
handshake promise.  The audio context is not created here. -/
def processInitDone (vm : VM) : VM := { vm with initialized := true }

/-- The continuation of _init after the awaited handshake resolves:
new AudioContext({ sampleRate: TTS_SAMPLE_RATE }). -/
def initContinuation (vm : VM) : VM := { vm with hasCtx := true }

/-- Messages posted from the TTS worker. -/
inductive WorkerOut where
  | init_progress (progress : ℚ) (status : String)
  | init_done
  | init_error (error : String)
  | generate_done (id : Nat) (samples : List Int) (sampleRate : Nat)
  | generate_error (id : Nat) (error : String)
  deriving DecidableEq, Repr

/-- Messages the worker receives. -/
inductive WorkerIn where
  | init
  | generate (id : Nat) (text : String) (voiceId : String) (speed : Option ℚ)
  deriving DecidableEq, Repr

/-- self.onmessage of tts-worker.ts.  The worker's engine handle (tts,
null until from_pretrained succeeds) is the Bool state.  The external
Kokoro engine is a parameter: the normalized progress reports its loading
emits, whether loading succeeds, and what a generate call on a loaded
engine would produce.  Returns the new engine state and the posted
messages in order. -/
def workerOnMessage (tts : Bool) (msg : WorkerIn)
    (engineInitProgress : List (ℚ × String)) (engineInit : Except String Unit)
    (engineGen : Except String SynthRes) : Bool × List WorkerOut :=
  match msg with
  | .init =>
    match engineInit with
    | .ok _ =>
      (true, (engineInitProgress.map fun p => WorkerOut.init_progress p.1 p.2)
               ++ [WorkerOut.init_done])
    | .error e =>
      (tts, (engineInitProgress.map fun p => WorkerOut.init_progress p.1 p.2)
              ++ [WorkerOut.init_error e])
  | .generate id _text _voiceId _speed =>
    if !tts then (tts, [WorkerOut.generate_error id "TTS not initialized"])
    else
      match engineGen with
      | .ok r => (tts, [WorkerOut.generate_done id r.samples r.sampleRate])
      | .error e => (tts, [WorkerOut.generate_error id e])

/-- Repeated generateAudio calls, collecting the ids of the successful
ones in call order. -/
def iterGen : Nat → VM → VM × List Nat
  | 0, vm => (vm, [])
  | n + 1, vm =>
    match generateAudio vm with
    | (vm1, .ok id) =>
      let p := iterGen n vm1
      (p.1, id :: p.2)
    | (vm1, .error _) =>
      let p := iterGen n vm1
      (p.1, p.2)

/-- The whole system the manager-side events act on: the manager, the
device, and a ghost log of every clip pushed onto the playback queue, in
push order. -/
structure Sys where
  vm : VM
  dev : Device
  enqLog : List Clip
  deriving DecidableEq, Repr

/-- Manager-side events.  speakOk r is the resumption of a speakSentence
call whose synthesis succeeded with r (push + drain); speakErr is a
resumption whose synthesis failed; genCall is the synchronous effect of a
generateAudio call; msg m is the steady-state handler on a worker
message; ended fires when the in-flight clip finishes on the device and
runs its onended callback; stop is a stopPlayback call. -/
inductive Ev where
  | speakOk (r : SynthRes)
  | speakErr (e : String)
  | genCall
  | msg (m : WMsg)
  | ended
  | stop
  deriving DecidableEq, Repr

/-- One event. -/
def step (s : Sys) (e : Ev) : Sys :=
  match e with
  | .speakOk r =>
    let o := speakSentenceResume s.vm s.dev (.ok r)
    { vm := o.vm, dev := o.dev, enqLog := s.enqLog ++ [clipOf r] }
  | .speakErr e =>
    let o := speakSentenceResume s.vm s.dev (.error e)
    { vm := o.vm, dev := o.dev, enqLog := s.enqLog }
  | .genCall => { s with vm := (generateAudio s.vm).1 }
  | .msg m => { s with vm := (handleMessage s.vm m).1 }
  | .ended =>
    match s.dev.active with
    | [] => s
    | _c :: rest =>
      let p := onEnded s.vm { s.dev with active := rest }
      { vm := p.1, dev := p.2, enqLog := s.enqLog }
  | .stop =>
    let p := stopPlayback s.vm s.dev
    { vm := p.1, dev := p.2, enqLog := s.enqLog }

/-- Run a list of events. -/
def run (s : Sys) (evs : List Ev) : Sys := evs.foldl step s

/-- The clips the events of a trace push, in order. -/
def enqOf : List Ev → List Clip
  | [] => []
  | Ev.speakOk r :: rest => clipOf r :: enqOf rest
  | _ :: rest => enqOf rest

/-- The manager state right after a successful initialization (init, the
init_done handshake, and the audio-context continuation). -/
def readyVM : VM := initContinuation (processInitDone (init initialVM).1)

/-- The ready system: freshly initialized manager, idle device. -/
def readySys : Sys := { vm := readyVM, dev := initialDev, enqLog := [] }

/-- A sample clip used in concrete evaluations. -/
def clipA : Clip := { samples := [1], sampleRate := 24000 }

/-- A second sample clip. -/
def clipB : Clip := { samples := [2], sampleRate := 24000 }

/-- A sample synthesis result producing clipA. -/
def resA : SynthRes := { samples := [1], sampleRate := 24000 }

/-- A second sample synthesis result producing clipB. -/
def resB : SynthRes := { samples := [2], sampleRate := 24000 }

/-- A ready manager with two clips waiting and nothing playing. -/
def vmQueued : VM := { readyVM with playbackQueue := [clipA, clipB] }

/-- A ready manager in the middle of playing a clip. -/
def vmBusy : VM :=
  { readyVM with isPlaying := true, currentSource := some clipA }

/-- A manager whose initialization is in flight. -/
def vmIniting : VM := { initialVM with hasInitPromise := true }

/-- A ready manager with two outstanding synthesis requests. -/
def vmPend : VM := { readyVM with nextId := 2, pending := [0, 1] }

/-- Scheduler coupling invariant: the device's in-flight set is exactly
the clip of currentSource, and isPlaying tracks whether a current source
exists. -/
def SchedInv (s : Sys) : Prop :=
  s.dev.active = s.vm.currentSource.toList ∧ s.vm.isPlaying = s.vm.currentSource.isSome

/-- FIFO accounting invariant: every clip ever pushed has either been
started (in start order) or still sits in the queue (in push order). -/
def FifoInv (s : Sys) : Prop :=
  s.dev.started ++ s.vm.playbackQueue = s.enqLog

theorem drainQueue_frame (vm : VM) (dev : Device) :
    (drainQueue vm dev).2.started ++ (drainQueue vm dev).1.playbackQueue
      = dev.started ++ vm.playbackQueue := by
  unfold drainQueue
  by_cases h : (vm.isPlaying || vm.playbackQueue.isEmpty || !vm.hasCtx) = true
  · rw [if_pos h]
  · rw [if_neg h]
    cases hq : vm.playbackQueue with
    | nil => simp [hq]
    | cons c rest => simp

theorem drainQueue_drop_delta (vm : VM) (dev : Device) :
    (drainQueue vm dev).2.started.drop dev.started.length
        ++ (drainQueue vm dev).1.playbackQueue
      = vm.playbackQueue := by
  unfold drainQueue
  by_cases h : (vm.isPlaying || vm.playbackQueue.isEmpty || !vm.hasCtx) = true
  · rw [if_pos h]; simp [List.drop_length]
  · rw [if_neg h]
    cases hq : vm.playbackQueue with
    | nil => simp [hq, List.drop_length]
    | cons c rest => simp [List.drop_left]

theorem drainQueue_sched (vm : VM) (dev : Device)
    (h1 : dev.active = vm.currentSource.toList)
    (h2 : vm.isPlaying = vm.currentSource.isSome) :
    (drainQueue vm dev).2.active = (drainQueue vm dev).1.currentSource.toList
      ∧ (drainQueue vm dev).1.isPlaying = (drainQueue vm dev).1.currentSource.isSome := by
  unfold drainQueue
  by_cases h : (vm.isPlaying || vm.playbackQueue.isEmpty || !vm.hasCtx) = true
  · rw [if_pos h]; exact ⟨h1, h2⟩
  · rw [if_neg h]
    have hp : vm.isPlaying = false := by
      cases hv : vm.isPlaying with
      | false => rfl
      | true => exact absurd (by simp [hv]) h
    have hcs : vm.currentSource = none := by
      cases hcs : vm.currentSource with
      | none => rfl
      | some c => rw [hcs] at h2; rw [hp] at h2; simp at h2
    cases hq : vm.playbackQueue with
    | nil => simp [h1, hcs, hp]
    | cons c rest => simp [h1, hcs]

theorem generateAudio_fields (vm : VM) :
    (generateAudio vm).1.currentSource = vm.currentSource
    ∧ (generateAudio vm).1.isPlaying = vm.isPlaying
    ∧ (generateAudio vm).1.playbackQueue = vm.playbackQueue
    ∧ (generateAudio vm).1.hasCtx = vm.hasCtx
    ∧ (generateAudio vm).1.hasWorker = vm.hasWorker := by
  unfold generateAudio
  split
  · exact ⟨rfl, rfl, rfl, rfl, rfl⟩
  · exact ⟨rfl, rfl, rfl, rfl, rfl⟩

theorem handleMessage_fields (vm : VM) (m : WMsg) :
    (handleMessage vm m).1.currentSource = vm.currentSource
    ∧ (handleMessage vm m).1.isPlaying = vm.isPlaying
    ∧ (handleMessage vm m).1.playbackQueue = vm.playbackQueue := by
  cases m with
  | generate_done id samples sr =>
    simp only [handleMessage]
    split <;> exact ⟨rfl, rfl, rfl⟩
  | generate_error id e =>
    simp only [handleMessage]
    split <;> exact ⟨rfl, rfl, rfl⟩
  | other => exact ⟨rfl, rfl, rfl⟩

theorem schedInv_step (s : Sys) (e : Ev) (h : SchedInv s) : SchedInv (step s e) := by
  obtain ⟨h1, h2⟩ := h
  cases e with
  | speakOk r => exact drainQueue_sched _ s.dev h1 h2
  | speakErr e => exact ⟨h1, h2⟩
  | genCall =>
    refine ⟨?_, ?_⟩
    · show s.dev.active = (generateAudio s.vm).1.currentSource.toList
      rw [(generateAudio_fields s.vm).1]; exact h1
    · show (generateAudio s.vm).1.isPlaying = (generateAudio s.vm).1.currentSource.isSome
      rw [(generateAudio_fields s.vm).1, (generateAudio_fields s.vm).2.1]; exact h2
  | msg m =>
    refine ⟨?_, ?_⟩
    · show s.dev.active = (handleMessage s.vm m).1.currentSource.toList
      rw [(handleMessage_fields s.vm m).1]; exact h1
    · show (handleMessage s.vm m).1.isPlaying = (handleMessage s.vm m).1.currentSource.isSome
      rw [(handleMessage_fields s.vm m).1, (handleMessage_fields s.vm m).2.1]; exact h2
  | ended =>
    cases ha : s.dev.active with
    | nil => simp only [step, ha]; exact ⟨h1, h2⟩
    | cons c rest =>
      have hrest : rest = [] := by
        cases hx : s.vm.currentSource with
        | none => rw [hx] at h1; rw [ha] at h1; simp at h1
        | some c0 => rw [hx] at h1; rw [ha] at h1; simp at h1; exact h1.2
      simp only [step, ha]
      exact drainQueue_sched _ _ (by simp [hrest]) (by simp)
  | stop =>
    cases hx : s.vm.currentSource with
    | none =>
      simp only [step, stopPlayback, hx]
      rw [hx] at h1
      exact ⟨by simpa using h1, by simp⟩
    | some c =>
      simp only [step, stopPlayback, hx]
      rw [hx] at h1
      simp at h1
      exact ⟨by simp [h1], by simp⟩

theorem fifoInv_step (s : Sys) (e : Ev) (h : FifoInv s) (hs : e ≠ Ev.stop) :
    FifoInv (step s e) := by
  cases e with
  | speakOk r =>
    show (drainQueue { s.vm with playbackQueue := s.vm.playbackQueue ++ [clipOf r] } s.dev).2.started
        ++ (drainQueue { s.vm with playbackQueue := s.vm.playbackQueue ++ [clipOf r] } s.dev).1.playbackQueue
      = s.enqLog ++ [clipOf r]
    rw [drainQueue_frame]
    show s.dev.started ++ (s.vm.playbackQueue ++ [clipOf r]) = s.enqLog ++ [clipOf r]
    rw [← List.append_assoc, h]
  | speakErr e => exact h
  | genCall =>
    show s.dev.started ++ (generateAudio s.vm).1.playbackQueue = s.enqLog
    rw [(generateAudio_fields s.vm).2.2.1]; exact h
  | msg m =>
    show s.dev.started ++ (handleMessage s.vm m).1.playbackQueue = s.enqLog
    rw [(handleMessage_fields s.vm m).2.2]; exact h
  | ended =>
    cases ha : s.dev.active with
    | nil => simp only [step, ha]; exact h
    | cons c rest =>
      simp only [step, ha]
      show (drainQueue { s.vm with isPlaying := false, currentSource := none }
              { s.dev with active := rest }).2.started
          ++ (drainQueue { s.vm with isPlaying := false, currentSource := none }
              { s.dev with active := rest }).1.playbackQueue
        = s.enqLog
      rw [drainQueue_frame]
      exact h
  | stop => exact absurd rfl hs

theorem run_cons (s : Sys) (e : Ev) (evs : List Ev) :
    run s (e :: evs) = run (step s e) evs := rfl

theorem schedInv_run (evs : List Ev) :
    ∀ s : Sys, SchedInv s → SchedInv (run s evs) := by
  induction evs with
  | nil => intro s h; exact h
  | cons e evs ih => intro s h; rw [run_cons]; exact ih _ (schedInv_step s e h)

theorem fifoInv_run (evs : List Ev) :
    ∀ s : Sys, FifoInv s → Ev.stop ∉ evs → FifoInv (run s evs) := by
  induction evs with
  | nil => intro s h _; exact h
  | cons e evs ih =>
    intro s h hs
    rw [run_cons]
    refine ih _ (fifoInv_step s e h ?_) ?_
    · intro he; exact hs (he ▸ List.mem_cons_self e evs)
    · exact fun hm => hs (List.mem_cons_of_mem e hm)

theorem step_enqLog (s : Sys) (e : Ev) : (step s e).enqLog = s.enqLog ++ enqOf [e] := by
  cases e with
  | speakOk r => rfl
  | speakErr e => simp [step, enqOf, speakSentenceResume]
  | genCall => simp [step, enqOf]
  | msg m => simp [step, enqOf]
  | ended => cases ha : s.dev.active <;> simp [step, ha, enqOf]
  | stop => simp [step, enqOf]

theorem enqOf_cons (e : Ev) (evs : List Ev) :
    enqOf (e :: evs) = enqOf [e] ++ enqOf evs := by
  cases e <;> simp [enqOf]

theorem run_enqLog (evs : List Ev) :
    ∀ s : Sys, (run s evs).enqLog = s.enqLog ++ enqOf evs := by
  induction evs with
  | nil => intro s; simp [run, enqOf]
  | cons e evs ih =>
    intro s
    rw [run_cons, ih, step_enqLog, List.append_assoc, ← enqOf_cons]

theorem schedInv_readySys : SchedInv readySys := ⟨rfl, rfl⟩

theorem fifoInv_readySys : FifoInv readySys := rfl

theorem iterGen_ids (n : Nat) :
    ∀ vm : VM, vm.hasWorker = true →
      (iterGen n vm).2 = List.range' vm.nextId n ∧ (iterGen n vm).1.hasWorker = true := by
  induction n with
  | zero => intro vm h; exact ⟨rfl, h⟩
  | succ n ih =>
    intro vm h
    have hg : generateAudio vm
        = ({ vm with nextId := vm.nextId + 1, pending := vm.pending ++ [vm.nextId] },
           Except.ok vm.nextId) := by
      unfold generateAudio
      rw [if_neg (by simp [h])]
    have ih2 := ih { vm with nextId := vm.nextId + 1, pending := vm.pending ++ [vm.nextId] } h
    simp only [iterGen, hg]
    refine ⟨?_, ih2.2⟩
    rw [ih2.1, List.range'_succ]

theorem initStep_fixed_of_promise (vm : VM) (h : vm.hasInitPromise = true) :
    initStep vm = vm := by
  unfold initStep init
  cases hi : vm.initialized with
  | true => rw [if_pos rfl]
  | false => rw [if_neg (by simp), if_pos h]

theorem initStep_iterate_spawnCount (n : Nat) :
    (initStep^[n] initialVM).spawnCount = min n 1 := by
  cases n with
  | zero => rfl
  | succ n =>
    rw [Function.iterate_succ_apply]
    have hfix : initStep^[n] (initStep initialVM) = initStep initialVM :=
      Function.iterate_fixed (initStep_fixed_of_promise _ rfl) n
    rw [hfix]
    have h1 : (initStep initialVM).spawnCount = 1 := rfl
    rw [h1]
    omega

/-- C1: drainQueue plays clips in strict FIFO order: when it acts (device
present, nothing playing, nonempty queue) it removes exactly the head of
the playback queue — the earliest enqueued clip — and starts it on the
device; and along any event trace from the ready state whose enqueues
occur in speakSentence call order (each call awaited to completion before
the next is issued, so its clip is enqueued before the next call starts),
with completion callbacks, generateAudio calls and message handling
interleaved arbitrarily but no stopPlayback, the clips started on the
device form an initial segment, in order, of the clips enqueued. -/
theorem drainQueue_plays_fifo :
    (∀ (vm : VM) (dev : Device) (c : Clip) (rest : List Clip),
      vm.isPlaying = false → vm.hasCtx = true → vm.playbackQueue = c :: rest →
        (drainQueue vm dev).1.playbackQueue = rest
        ∧ (drainQueue vm dev).2.started = dev.started ++ [c])
    ∧ (∀ evs : List Ev, Ev.stop ∉ evs →
        ∃ t, (run readySys evs).dev.started ++ t = enqOf evs) := by
  constructor
  · intro vm dev c rest hp hc hq
    unfold drainQueue
    rw [if_neg (by simp [hp, hc, hq])]
    simp [hq]
  · intro evs hs
    have hf := fifoInv_run evs readySys fifoInv_readySys hs
    have hl := run_enqLog evs readySys
    refine ⟨(run readySys evs).vm.playbackQueue, ?_⟩
    unfold FifoInv at hf
    rw [hf, hl]
    rfl

/-- Witness for C1: popping the head of a two-clip queue, and a concrete
no-stop trace. -/
theorem drainQueue_plays_fifo_witness :
    ((drainQueue vmQueued initialDev).1.playbackQueue = [clipB]
      ∧ (drainQueue vmQueued initialDev).2.started = initialDev.started ++ [clipA])
    ∧ ∃ t, (run readySys [Ev.speakOk resA, Ev.ended, Ev.speakOk resB]).dev.started ++ t
        = enqOf [Ev.speakOk resA, Ev.ended, Ev.speakOk resB] :=
  ⟨drainQueue_plays_fifo.1 vmQueued initialDev clipA [clipB]
      (by decide) (by decide) (by decide),
   drainQueue_plays_fifo.2 [Ev.speakOk resA, Ev.ended, Ev.speakOk resB] (by decide)⟩

/-- C2: at most one clip plays at a time: drainQueue is a no-op whenever
isPlaying is set, the queue is empty or no device exists, and in every
state reachable from the ready state by any sequence of operations
(speakSentence resumptions, generateAudio calls, message handling,
completion callbacks, stopPlayback) the device has at most one clip in
flight. -/
theorem at_most_one_clip_playing :
    (∀ (vm : VM) (dev : Device),
      vm.isPlaying = true ∨ vm.playbackQueue = [] ∨ vm.hasCtx = false →
        drainQueue vm dev = (vm, dev))
    ∧ (∀ evs : List Ev, (run readySys evs).dev.active.length ≤ 1) := by
  constructor
  · intro vm dev h
    have hg : (vm.isPlaying || vm.playbackQueue.isEmpty || !vm.hasCtx) = true := by
      rcases h with h | h | h <;> simp [h]
    unfold drainQueue
    rw [if_pos hg]
  · intro evs
    have h := (schedInv_run evs readySys schedInv_readySys).1
    rw [h]
    cases (run readySys evs).vm.currentSource <;> simp

/-- Witness for C2: drainQueue ignores a busy manager, and a concrete
trace with a burst of two enqueues and a stop keeps at most one clip in
flight. -/
theorem at_most_one_clip_playing_witness :
    drainQueue vmBusy initialDev = (vmBusy, initialDev)
    ∧ (run readySys [Ev.speakOk resA, Ev.speakOk resB, Ev.stop]).dev.active.length ≤ 1 :=
  ⟨at_most_one_clip_playing.1 vmBusy initialDev (Or.inl (by decide)),
   at_most_one_clip_playing.2 [Ev.speakOk resA, Ev.speakOk resB, Ev.stop]⟩

/-- C3: speakSentence never throws to its caller: it is a total function
on states and synthesis outcomes; with no audio device or an
uninitialized manager it returns 0 immediately with no side effects and
no warning; with no worker the rejected generateAudio promise is caught,
warned about and turned into 0; and any awaited synthesis failure is
caught, warned about and turned into 0 with no state change. -/
theorem speakSentence_never_throws :
    (∀ vm : VM, vm.hasCtx = false ∨ vm.initialized = false →
        speakSentenceStart vm = SpeakStep.done vm 0 false)
    ∧ (∀ vm : VM, vm.hasCtx = true → vm.initialized = true → vm.hasWorker = false →
        speakSentenceStart vm = SpeakStep.done vm 0 true)
    ∧ (∀ (vm : VM) (dev : Device) (e : String),
        speakSentenceResume vm dev (Except.error e)
          = { vm := vm, dev := dev, duration := 0, warned := true }) := by
  refine ⟨?_, ?_, ?_⟩
  · intro vm h
    unfold speakSentenceStart
    rcases h with h | h <;> rw [if_pos (by simp [h])]
  · intro vm hc hi hw
    unfold speakSentenceStart
    rw [if_neg (by simp [hc, hi])]
    unfold generateAudio
    rw [if_pos (by simp [hw])]
  · intro vm dev e
    rfl

/-- Witness for C3: an uninitialized manager and a failed synthesis both
yield 0 without an exception. -/
theorem speakSentence_never_throws_witness :
    speakSentenceStart initialVM = SpeakStep.done initialVM 0 false
    ∧ speakSentenceResume readyVM initialDev (Except.error "network down")
      = { vm := readyVM, dev := initialDev, duration := 0, warned := true } :=
  ⟨speakSentence_never_throws.1 initialVM (Or.inl (by decide)),
   speakSentence_never_throws.2.2 readyVM initialDev "network down"⟩

/-- C4: the steady-state handler settles the correlation table: a
generate_done for a pending id removes exactly that entry and fulfills
its completion with the result; a generate_error for a pending id removes
exactly that entry and fails its completion with the worker error; a
response for an unknown id is silently ignored with no state change; and
after a response for an id is processed the table never holds that id. -/
theorem handleMessage_settles_correlation :
    (∀ (vm : VM) (id : Nat) (samples : List Int) (sr : Nat), id ∈ vm.pending →
        (handleMessage vm (WMsg.generate_done id samples sr)).2
            = some (Completion.resolved id { samples := samples, sampleRate := sr })
        ∧ id ∉ (handleMessage vm (WMsg.generate_done id samples sr)).1.pending
        ∧ ∀ j : Nat, j ≠ id →
            ((j ∈ (handleMessage vm (WMsg.generate_done id samples sr)).1.pending)
              ↔ j ∈ vm.pending))
    ∧ (∀ (vm : VM) (id : Nat) (e : String), id ∈ vm.pending →
        (handleMessage vm (WMsg.generate_error id e)).2 = some (Completion.rejected id e)
        ∧ id ∉ (handleMessage vm (WMsg.generate_error id e)).1.pending
        ∧ ∀ j : Nat, j ≠ id →
            ((j ∈ (handleMessage vm (WMsg.generate_error id e)).1.pending)
              ↔ j ∈ vm.pending))
    ∧ (∀ (vm : VM) (id : Nat) (samples : List Int) (sr : Nat), id ∉ vm.pending →
        handleMessage vm (WMsg.generate_done id samples sr) = (vm, none))
    ∧ (∀ (vm : VM) (id : Nat) (e : String), id ∉ vm.pending →
        handleMessage vm (WMsg.generate_error id e) = (vm, none))
    ∧ (∀ (vm : VM) (id : Nat) (samples : List Int) (sr : Nat),
        id ∉ (handleMessage vm (WMsg.generate_done id samples sr)).1.pending)
    ∧ (∀ (vm : VM) (id : Nat) (e : String),
        id ∉ (handleMessage vm (WMsg.generate_error id e)).1.pending) := by
  refine ⟨?_, ?_, ?_, ?_, ?_, ?_⟩
  · intro vm id samples sr h
    simp only [handleMessage]
    rw [if_pos h]
    refine ⟨rfl, by simp [List.mem_filter], ?_⟩
    intro j hj
    simp [List.mem_filter, bne_iff_ne, hj]
  · intro vm id e h
    simp only [handleMessage]
    rw [if_pos h]
    refine ⟨rfl, by simp [List.mem_filter], ?_⟩
    intro j hj
    simp [List.mem_filter, bne_iff_ne, hj]
  · intro vm id samples sr h
    simp only [handleMessage]
    rw [if_neg h]
  · intro vm id e h
    simp only [handleMessage]
    rw [if_neg h]
  · intro vm id samples sr
    by_cases h : id ∈ vm.pending
    · simp only [handleMessage]; rw [if_pos h]; simp [List.mem_filter]
    · simp only [handleMessage]; rw [if_neg h]; exact h
  · intro vm id e
    by_cases h : id ∈ vm.pending
    · simp only [handleMessage]; rw [if_pos h]; simp [List.mem_filter]
    · simp only [handleMessage]; rw [if_neg h]; exact h

/-- Witness for C4 on a table holding ids 0 and 1. -/
theorem handleMessage_settles_correlation_witness :
    (handleMessage vmPend (WMsg.generate_done 0 [5] 24000)).2
        = some (Completion.resolved 0 { samples := [5], sampleRate := 24000 })
    ∧ 0 ∉ (handleMessage vmPend (WMsg.generate_done 0 [5] 24000)).1.pending
    ∧ ((1 ∈ (handleMessage vmPend (WMsg.generate_done 0 [5] 24000)).1.pending)
        ↔ 1 ∈ vmPend.pending)
    ∧ handleMessage vmPend (WMsg.generate_done 7 [5] 24000) = (vmPend, none) :=
  ⟨(handleMessage_settles_correlation.1 vmPend 0 [5] 24000 (by decide)).1,
   (handleMessage_settles_correlation.1 vmPend 0 [5] 24000 (by decide)).2.1,
   (handleMessage_settles_correlation.1 vmPend 0 [5] 24000 (by decide)).2.2 1 (by decide),
   handleMessage_settles_correlation.2.2.1 vmPend 7 [5] 24000 (by decide)⟩

/-- C5: a generate message arriving before the engine has loaded is
answered by the worker itself with a generate_error carrying the
"not initialized" error for that id; the reply does not depend on the
engine outcome parameter, so no synthesis is attempted. -/
theorem worker_rejects_generate_before_init
    (id : Nat) (text voiceId : String) (speed : Option ℚ)
    (progress : List (ℚ × String)) (engineInit : Except String Unit)
    (engineGen : Except String SynthRes) :
    workerOnMessage false (WorkerIn.generate id text voiceId speed)
        progress engineInit engineGen
      = (false, [WorkerOut.generate_error id "TTS not initialized"]) := rfl

/-- C6: init is idempotent and coalescing: when initialized it returns at
once with no state change; while an initPromise is outstanding every
caller gets that same stored promise back with no state change; and any
number of init calls on a fresh manager constructs exactly min n 1
workers — one for the whole lifetime. -/
theorem init_idempotent_and_coalescing :
    (∀ vm : VM, vm.initialized = true → init vm = (vm, InitAction.alreadyReady))
    ∧ (∀ vm : VM, vm.initialized = false → vm.hasInitPromise = true →
        init vm = (vm, InitAction.joinExisting))
    ∧ (∀ n : Nat, (initStep^[n] initialVM).spawnCount = min n 1) := by
  refine ⟨?_, ?_, initStep_iterate_spawnCount⟩
  · intro vm h
    unfold init
    rw [if_pos h]
  · intro vm hi hp
    unfold init
    rw [if_neg (by simp [hi]), if_pos hp]

/-- Witness for C6: a ready manager, a manager mid-initialization, and
three init calls on a fresh manager. -/
theorem init_idempotent_and_coalescing_witness :
    init readyVM = (readyVM, InitAction.alreadyReady)
    ∧ init vmIniting = (vmIniting, InitAction.joinExisting)
    ∧ (initStep^[3] initialVM).spawnCount = min 3 1 :=
  ⟨init_idempotent_and_coalescing.1 readyVM (by decide),
   init_idempotent_and_coalescing.2.1 vmIniting (by decide) (by decide),
   init_idempotent_and_coalescing.2.2 3⟩

/-- C7: the ids handed out by any number of successive generateAudio
calls on one manager are consecutive from the current counter, pairwise
strictly increasing and never reused, and from a fresh counter they are
0, 1, ..., n-1. -/
theorem generateAudio_ids_strictly_increasing (vm : VM) (n : Nat)
    (h : vm.hasWorker = true) :
    (iterGen n vm).2 = List.range' vm.nextId n
    ∧ List.Pairwise (· < ·) (iterGen n vm).2
    ∧ (iterGen n vm).2.Nodup
    ∧ (vm.nextId = 0 → (iterGen n vm).2 = List.range n) := by
  have hid := (iterGen_ids n vm h).1
  refine ⟨hid, ?_, ?_, ?_⟩
  · rw [hid]; exact List.pairwise_lt_range' vm.nextId n
  · rw [hid]; exact (List.pairwise_lt_range' vm.nextId n).imp fun hlt => Nat.ne_of_lt hlt
  · intro h0; rw [hid, h0, List.range_eq_range']

/-- Witness for C7: three calls on a freshly initialized manager yield
ids 0, 1, 2. -/
theorem generateAudio_ids_witness :
    (iterGen 3 readyVM).2 = List.range' readyVM.nextId 3
    ∧ List.Pairwise (· < ·) (iterGen 3 readyVM).2
    ∧ (iterGen 3 readyVM).2.Nodup
    ∧ (iterGen 3 readyVM).2 = List.range 3 :=
  ⟨(generateAudio_ids_strictly_increasing readyVM 3 (by decide)).1,
   (generateAudio_ids_strictly_increasing readyVM 3 (by decide)).2.1,
   (generateAudio_ids_strictly_increasing readyVM 3 (by decide)).2.2.1,
   (generateAudio_ids_strictly_increasing readyVM 3 (by decide)).2.2.2 (by decide)⟩

/-- C8: stopPlayback, from any state, empties the queue, clears the
current-clip handle, resets isPlaying, issues exactly one device stop
when a clip was in flight and none otherwise (the stop itself tolerating
an already-stopped handle), and a second call changes nothing — it is a
total function, so it never raises. -/
theorem stopPlayback_safe (vm : VM) (dev : Device) :
    (stopPlayback vm dev).1.playbackQueue = []
    ∧ (stopPlayback vm dev).1.currentSource = none
    ∧ (stopPlayback vm dev).1.isPlaying = false
    ∧ (stopPlayback vm dev).2.stops
        = dev.stops + (if vm.currentSource.isSome then 1 else 0)
    ∧ stopPlayback (stopPlayback vm dev).1 (stopPlayback vm dev).2
        = stopPlayback vm dev := by
  cases hx : vm.currentSource with
  | none => simp [stopPlayback, hx]
  | some c => simp [stopPlayback, hx]

/-- C9: a successful speakSentence returns duration = sampleCount /
sampleRate computed before playback, pushes exactly one clip built from
the returned samples at the returned rate onto the queue (the clip is
then either still queued or already started, never duplicated or
dropped), does not warn, and 24000 samples at 24000 Hz give exactly 1
second. -/
theorem speakSentence_success_spec (vm : VM) (dev : Device) (r : SynthRes) :
    (speakSentenceResume vm dev (Except.ok r)).duration
        = (r.samples.length : ℚ) / (r.sampleRate : ℚ)
    ∧ (speakSentenceResume vm dev (Except.ok r)).warned = false
    ∧ ((speakSentenceResume vm dev (Except.ok r)).dev.started.drop dev.started.length
        ++ (speakSentenceResume vm dev (Except.ok r)).vm.playbackQueue
        = vm.playbackQueue ++ [clipOf r])
    ∧ (speakSentenceResume vm dev
          (Except.ok { samples := List.replicate 24000 0, sampleRate := 24000 })).duration
        = 1 := by
  refine ⟨rfl, rfl, ?_, ?_⟩
  · exact drainQueue_drop_delta
      { vm with playbackQueue := vm.playbackQueue ++ [clipOf r] } dev
  · show ((List.replicate 24000 (0 : Int)).length : ℚ) / ((24000 : Nat) : ℚ) = 1
    rw [List.length_replicate]
    norm_num

/-- C10: the gap between readiness and device creation is reachable:
after init spawns the worker and the init_done message is processed, the
initialized flag (hence isReady) is already true while the audio context
is created only by the continuation that runs afterward; in that
intermediate state speakSentence returns 0 at once because the device is
absent. -/
theorem isReady_before_device_exists :
    isReady (processInitDone (init initialVM).1) = true
    ∧ (processInitDone (init initialVM).1).hasCtx = false
    ∧ speakSentenceStart (processInitDone (init initialVM).1)
        = SpeakStep.done (processInitDone (init initialVM).1) 0 false
    ∧ (initContinuation (processInitDone (init initialVM).1)).hasCtx = true :=
  ⟨rfl, rfl, rfl, rfl⟩

end NPC
